import Mathlib

/-!
Verification of the java executor module (`src/python/pants/java/executor.py`)
against its design document.

The development shallowly embeds the module: Python values that flow into the
argument scrubber are a small inductive universe, the filesystem and the
process environment are explicit state threaded through the scoped helpers,
and the two `contextlib` helpers from `twitter.common.contextutil`
(`temporary_file_path`, `environment_as`) — whose sources are external to this
repository — are modelled from the design document as scoped acquire/release
with unconditional release.
-/

set_option maxHeartbeats 1000000

/-- Python values that reach `Executor._scrub_args`: `None`, a string, a list
of strings, or an int (standing for any value that is neither a string nor an
iterable of strings). -/
inductive PyVal where
  | none
  | str (s : String)
  | strList (xs : List String)
  | int (n : Int)
deriving DecidableEq, Repr

/-- Rendering used by the `%s` formatting in the error messages. -/
def pyStr : PyVal → String
  | .none => "None"
  | .str s => s
  | .strList xs => String.intercalate ", " xs
  | .int n => toString n

/-- Python truthiness of the values in `PyVal` (`None`, empty string, empty
list and `0` are falsy). -/
def pyFalsy : PyVal → Bool
  | .none => true
  | .str s => s.isEmpty
  | .strList xs => xs.isEmpty
  | .int n => n == 0

/-- Evaluates the Python expression `v or ()`: a falsy `v` is replaced by the
empty tuple, which the scrubber then turns into the empty list. -/
def pyOrEmpty (v : PyVal) : PyVal :=
  if pyFalsy v then .strList [] else v

/-- Exceptions that can escape the embedded operations. `executorError` is
`Executor.Error`, the launch error of the module. -/
inductive PyExc where
  | valueError (msg : String)
  | typeError (msg : String)
  | attributeError (msg : String)
  | executorError (msg : String)
deriving DecidableEq, Repr

/-- `twitter.common.collections.maybe_list` with the default string expected
type: a single string becomes a one-element list, an iterable of strings
becomes a list, anything else raises `ValueError`. -/
def maybe_list : PyVal → Except PyExc (List String)
  | .str s => .ok [s]
  | .strList xs => .ok xs
  | v => .error (.valueError ("Value must be of type str or an iterable of str, given: " ++ pyStr v))

/-- The main-class check of `Executor._scrub_args`:
`if not isinstance(main, string) or not main: raise ValueError(...)`. -/
def check_main (main : PyVal) : Except PyExc String :=
  match main with
  | .str s =>
      if s.isEmpty then
        .error (.valueError ("A non-empty main classname is required, given: " ++ pyStr main))
      else .ok s
  | _ => .error (.valueError ("A non-empty main classname is required, given: " ++ pyStr main))

/-- `Executor._scrub_args(classpath, main, jvm_options, args)` from the
source: `maybe_list` on the classpath first (with no `or ()` defaulting!),
then the main check, then the `or ()` defaulting and `maybe_list` for jvm
options and args. -/
def scrub_args (classpath main jvm_options args : PyVal) :
    Except PyExc (List String × String × List String × List String) := do
  let cp ← maybe_list classpath
  let m ← check_main main
  let jv ← maybe_list (pyOrEmpty jvm_options)
  let a ← maybe_list (pyOrEmpty args)
  pure (cp, m, jv, a)

/-- Python `str.join`: `strJoin sep [a, b, c] = a ++ sep ++ b ++ sep ++ c`. -/
def strJoin (sep : String) : List String → String
  | [] => ""
  | [x] => x
  | x :: rest => x ++ sep ++ strJoin sep rest

/-- Python `s.endswith(suffix)`, decided on the character lists. -/
def endswith (suffix s : String) : Bool :=
  suffix.data.isSuffixOf s.data

/-- `os.pathsep` on a POSIX host. -/
def os_pathsep : String := ":"

/-- `Executor._create_command(classpath, main, jvm_options, args)` from the
source: start from the java binary of the distribution, extend with the jvm
options, then `-cp`, the joined classpath and the main class, then the
program args. -/
def create_command (java : String) (classpath : List String) (main : String)
    (jvm_options args : List String) : List String :=
  let cmd := [java]
  let cmd := cmd ++ jvm_options
  let cmd := cmd ++ ["-cp", strJoin os_pathsep classpath, main]
  cmd ++ args

/-- Contents of a file in the modelled filesystem: either a plain (empty)
temporary file, or a jar holding a manifest. -/
inductive FileContent where
  | empty
  | jarWith (m : List (String × String))
deriving DecidableEq, Repr

/-- The filesystem visible to the minimizer: the current files with their
contents, plus a log of every path ever created (the log survives deletion, so
that a theorem can talk about files that existed at some point). -/
structure FS where
  files : List (String × FileContent)
  createdLog : List String
deriving DecidableEq, Repr

/-- Create or overwrite a file. -/
def FS.write (fs : FS) (path : String) (c : FileContent) : FS :=
  { files := (path, c) :: fs.files.filter (fun pc => !(pc.1 == path)),
    createdLog := fs.createdLog ++ [path] }

/-- Remove a file. -/
def FS.delete (fs : FS) (path : String) : FS :=
  { files := fs.files.filter (fun pc => !(pc.1 == path)), createdLog := fs.createdLog }

/-- Does the file currently exist? -/
def FS.fileExists (fs : FS) (path : String) : Bool :=
  fs.files.any (fun pc => pc.1 == path)

/-- Current contents of a file, if it exists. -/
def FS.read (fs : FS) (path : String) : Option FileContent :=
  (fs.files.find? (fun pc => pc.1 == path)).map (·.2)

/-- Modelled from the spec: `twitter.common.contextutil.temporary_file_path`
(not part of this repository) is a scoped resource — it creates a fresh
temporary file, hands its path to the body, and deletes the file on every exit
path of the scope (the `finally` of the underlying context manager). The fresh
path is a parameter; the result of the body is an arbitrary `α`, so bodies
that return `Except` errors are covered and the deletion still runs. -/
def temporary_file_path {α : Type} (fresh : String) (body : String → FS → α × FS)
    (fs : FS) : α × FS :=
  let fs1 := fs.write fresh .empty
  let (r, fs2) := body fresh fs1
  (r, fs2.delete fresh)

/-- Modelled from the spec: the manifest attribute names of
`pants.java.jar.Manifest` (that module is not under `src/`); the design
document names the three attributes the minimizer writes. -/
def Manifest.CLASS_PATH : String := "Class-Path"

/-- Modelled from the spec: see `Manifest.CLASS_PATH`. -/
def Manifest.CREATED_BY : String := "Created-By"

/-- Modelled from the spec: see `Manifest.CLASS_PATH`. -/
def Manifest.MANIFEST_VERSION : String := "Manifest-Version"

/-- Modelled from the spec: `Manifest.addentry` records an attribute; the
manifest is the ordered list of its attributes. -/
def Manifest.addentry (m : List (String × String)) (k v : String) :
    List (String × String) :=
  m ++ [(k, v)]

/-- Look up an attribute of a manifest. -/
def Manifest.lookup (m : List (String × String)) (k : String) : Option String :=
  (m.find? (fun e => e.1 == k)).map (·.2)

/-- The manifest built by `Executor._get_minimized_jar_classpath` for the
given jar entries, following the three `addentry` calls of the source. -/
def minimizer_manifest (jar_classpath : List String) : List (String × String) :=
  Manifest.addentry
    (Manifest.addentry
      (Manifest.addentry [] Manifest.CLASS_PATH (strJoin " " jar_classpath))
      Manifest.CREATED_BY "Pants_JAR_Minimizer")
    Manifest.MANIFEST_VERSION "1.0"

/-- `Executor._get_minimized_jar_classpath(classpath)` from the source: split
the classpath into jar entries and the rest (`path.endswith(".jar")`), build
the three-attribute manifest, create a temporary file, write the manifest
into it as a jar (`open_jar` + `writestr`, modelled as writing the manifest as
the jar contents), and hand `[classpath_jar_filepath] ++ non_jar_classpath`
to the body of the scope. There is no shortcut for a classpath without jar
entries: the temporary jar is created unconditionally. -/
def get_minimized_jar_classpath {α : Type} (fresh : String)
    (body : List String → FS → α × FS) (classpath : List String) (fs : FS) :
    α × FS :=
  let part := classpath.partition (fun path => endswith ".jar" path)
  let jar_classpath := part.1
  let non_jar_classpath := part.2
  let manifest := minimizer_manifest jar_classpath
  temporary_file_path fresh
    (fun classpath_jar_filepath fs1 =>
      let fs2 := fs1.write classpath_jar_filepath (.jarWith manifest)
      body ([classpath_jar_filepath] ++ non_jar_classpath) fs2)
    fs

/-- The process environment, an association list from variable names to
values: absence of a key is an unset variable (`os.getenv` returns `None`). -/
def Env : Type := List (String × String)

/-- `os.getenv(k)`. -/
def getenv (env : Env) (k : String) : Option String :=
  (env.find? (fun p => p.1 == k)).map (·.2)

/-- Unset a variable (what `environment_as(k=None)` installs). -/
def delenv (env : Env) (k : String) : Env :=
  env.filter (fun p => !(p.1 == k))

/-- The setter of `environment_as`: a present value is stored, `None`
unsets the variable. -/
def setenv_opt (env : Env) (k : String) : Option String → Env
  | some v => (k, v) :: delenv env k
  | Option.none => delenv env k

/-- Modelled from the spec: `twitter.common.contextutil.environment_as`
(not part of this repository) with a single `k=None` binding — save the old
value, unset the variable for the body, and restore the old value on every
exit path (`finally`). The body result is an arbitrary `α`, so failing bodies
are covered and the restore still runs. -/
def environment_as_none {α : Type} (k : String) (body : Env → α × Env)
    (env : Env) : α × Env :=
  let old := getenv env k
  let env1 := delenv env k
  let (r, env2) := body env1
  (r, setenv_opt env2 k old)

/-- `SubprocessExecutor._maybe_scrubbed_classpath` from the source: when
scrubbing is enabled, read the ambient `CLASSPATH`, warn when it is truthy
(non-empty), and run the body under `environment_as(CLASSPATH=None)`;
otherwise run the body directly. The second component collects the warnings
emitted by `log.warn`. -/
def maybe_scrubbed_classpath {α : Type} (scrub_classpath : Bool)
    (body : Env → α × Env) (env : Env) : (α × Env) × List String :=
  if scrub_classpath then
    let classpath := getenv env "CLASSPATH"
    let warnings :=
      match classpath with
      | some s => if s.isEmpty then [] else ["Scrubbing CLASSPATH=" ++ s]
      | Option.none => []
    (environment_as_none "CLASSPATH" body env, warnings)
  else (body env, [])

/-- The handle returned by `subprocess.Popen`: it records the argument vector
and the environment the child inherited at spawn time. -/
structure Popen where
  childEnv : Env
  argv : List String

/-- `subprocess.Popen(cmd, ...)` as the OS sees it: the `osError` parameter
is the OS decision for this spawn attempt — `some m` means process creation
fails with an `OSError` described by `m`, `none` means the child starts and
inherits the current environment. -/
def subprocess_popen (osError : Option String) (cmd : List String) (env : Env) :
    Except String Popen :=
  match osError with
  | some e => .error e
  | Option.none => .ok { childEnv := env, argv := cmd }

/-- Outcome of `SubprocessExecutor._spawn`: the result (a process handle or
the raised exception), the caller environment after the call, and the
warnings emitted. -/
structure SpawnResult where
  result : Except PyExc Popen
  finalEnv : Env
  warnings : List String

/-- `SubprocessExecutor._spawn(cmd)` from the source: inside
`_maybe_scrubbed_classpath`, call `subprocess.Popen(cmd)`; an `OSError` is
re-raised as `Executor.Error` with the message
`Problem executing <java>: <error>` naming the java binary of the
distribution. -/
def SubprocessExecutor._spawn (java : String) (scrub_classpath : Bool)
    (osError : Option String) (cmd : List String) (env : Env) : SpawnResult :=
  let ((r, envF), w) := maybe_scrubbed_classpath scrub_classpath
    (fun env1 =>
      (match subprocess_popen osError cmd env1 with
       | .ok p => Except.ok p
       | .error e =>
           Except.error (.executorError ("Problem executing " ++ java ++ ": " ++ e)),
       env1))
    env
  { result := r, finalEnv := envF, warnings := w }

/-- `SubprocessExecutor.spawn(classpath, main, jvm_options, args)` from the
source: scrub the arguments, build the command with `_create_command`, and
call `_spawn`. The filesystem is passed through untouched — `spawn` performs
no filesystem operation and in particular never calls the classpath
minimizer. -/
def SubprocessExecutor.spawn (java : String) (scrub_classpath : Bool)
    (osError : Option String) (classpath main jvm_options args : PyVal)
    (env : Env) (fs : FS) : (Except PyExc Popen × Env × List String) × FS :=
  match scrub_args classpath main jvm_options args with
  | .error e => ((.error e, env, []), fs)
  | .ok (cp, m, jv, a) =>
      let cmd := create_command java cp m jv a
      let r := SubprocessExecutor._spawn java scrub_classpath osError cmd env
      ((r.result, r.finalEnv, r.warnings), fs)

/-- `CommandLineGrabber`-side runner: the Runner built by
`CommandLineGrabber._runner` exposes the joined command string; its `run`
returns 0 (see `GrabberRunner.run`). -/
structure GrabberRunner where
  cmd : String
deriving DecidableEq, Repr

/-- `run` of the recording Runner: always 0, touching nothing. -/
def GrabberRunner.run (_ : GrabberRunner) : Int := 0

/-- Entering the context manager returned by `Executor.runner` on a
`CommandLineGrabber`, with a list classpath: the generator body runs up to
`yield`. Order of operations, exactly as in the source: first
`_get_minimized_jar_classpath(classpath)` (which creates the carrier jar),
then `_scrub_args(minimized_classpath, main, jvm_options, args)` (which can
raise `ValueError`), then `_runner`, which stores the assembled command in
`self._command` (the `Option (List String)` component, `none` while nothing
was captured) and yields the Runner. An exception propagates through the
minimizer scope, whose cleanup still runs. -/
def CommandLineGrabber.runner_enter (java fresh : String) (classpath : List String)
    (main jvm_options args : PyVal) (fs : FS) :
    (Except PyExc GrabberRunner × Option (List String)) × FS :=
  get_minimized_jar_classpath fresh
    (fun minimized_classpath fs1 =>
      match scrub_args (.strList minimized_classpath) main jvm_options args with
      | .error e => ((.error e, Option.none), fs1)
      | .ok (cp, m, jv, a) =>
          let command := create_command java cp m jv a
          ((.ok { cmd := strJoin " " command }, some command), fs1))
    classpath fs

/-- Attribute table of the object returned by calling a function decorated
with `contextlib.contextmanager` (a `GeneratorContextManager`): only the
context-manager protocol is available. In particular there is no `run`. -/
def generator_context_manager_attributes : List String := ["__enter__", "__exit__"]

/-- Python attribute access `obj.name` against an attribute table: a missing
attribute raises `AttributeError`. -/
def attribute_lookup (attrs : List String) (name : String) : Except PyExc String :=
  if name ∈ attrs then .ok name
  else .error (.attributeError ("GeneratorContextManager object has no attribute " ++ name))

/-- `Executor.execute(classpath, main, jvm_options, args)` from the source:
`executor = self.runner(...)` calls the `@contextmanager`-decorated `runner`,
which only constructs the generator context manager — the generator body
(validation, minimization, `_runner`) does not start. The source then
evaluates `executor.run(stdout=stdout, stderr=stderr)`, an attribute access
on the context-manager object. `entered_run` is the semantics that would run
had the context manager been entered and `run` called on the yielded Runner;
it is a parameter so that the theorem covers every strategy. -/
def Executor.execute (entered_run : FS → Except PyExc Int × FS) (fs : FS) :
    Except PyExc Int × FS :=
  match attribute_lookup generator_context_manager_attributes "run" with
  | .error e => (.error e, fs)
  | .ok _ => entered_run fs

/-- Splitting a character list on the space character, with the semantics of
Python `s.split(" ")`: `splitChOnSpace [] = [[]]`, a space starts a new
(initially empty) group. -/
def splitChOnSpace : List Char → List (List Char)
  | [] => [[]]
  | c :: rest =>
    let r := splitChOnSpace rest
    if c = ' ' then [] :: r else (c :: r.headI) :: r.tail

/-- Python `s.split(" ")` on strings, via the character lists. -/
def splitSpaces (s : String) : List String :=
  (splitChOnSpace s.data).map (fun l => ⟨l⟩)

theorem splitChOnSpace_ne_nil (l : List Char) : splitChOnSpace l ≠ [] := by
  cases l with
  | nil => simp [splitChOnSpace]
  | cons c rest =>
    simp only [splitChOnSpace]
    split <;> simp

theorem splitChOnSpace_no_space (d : List Char) (h : ' ' ∉ d) :
    splitChOnSpace d = [d] := by
  induction d with
  | nil => rfl
  | cons c rest ih =>
    have hc : ¬ c = ' ' := fun hcc => h (hcc ▸ List.mem_cons_self c rest)
    have hr : ' ' ∉ rest := fun hm => h (List.mem_cons_of_mem c hm)
    simp only [splitChOnSpace, ih hr, if_neg hc, List.headI, List.tail]

theorem splitChOnSpace_append (a b : List Char) (h : ' ' ∉ a) :
    splitChOnSpace (a ++ ' ' :: b) = a :: splitChOnSpace b := by
  induction a with
  | nil => simp [splitChOnSpace]
  | cons c rest ih =>
    have hc : ¬ c = ' ' := fun hcc => h (hcc ▸ List.mem_cons_self c rest)
    have hr : ' ' ∉ rest := fun hm => h (List.mem_cons_of_mem c hm)
    simp [splitChOnSpace, ih hr, hc]

/-- Character list of a space-join: the join inserts single spaces. -/
theorem strJoin_space_data (x : String) (rest : List String) (hrest : rest ≠ []) :
    (strJoin " " (x :: rest)).data = x.data ++ ' ' :: (strJoin " " rest).data := by
  cases rest with
  | nil => exact absurd rfl hrest
  | cons y r =>
    show (x ++ " " ++ strJoin " " (y :: r)).data = _
    rw [String.data_append, String.data_append]
    have hsp : (" " : String).data = [' '] := rfl
    rw [hsp]
    simp

/-- Splitting a space-join of space-free nonempty pieces recovers the
pieces. -/
theorem splitSpaces_strJoin (jars : List String) (hne : jars ≠ [])
    (hns : ∀ j ∈ jars, ' ' ∉ j.data) :
    splitSpaces (strJoin " " jars) = jars := by
  induction jars with
  | nil => exact absurd rfl hne
  | cons x rest ih =>
    cases rest with
    | nil =>
      show (splitChOnSpace (strJoin " " [x]).data).map _ = [x]
      have hx : ' ' ∉ x.data := hns x (List.mem_cons_self x [])
      simp [strJoin, splitChOnSpace_no_space x.data hx]
    | cons y r =>
      have hx : ' ' ∉ x.data := hns x (List.mem_cons_self x (y :: r))
      have hrest : ∀ j ∈ y :: r, ' ' ∉ j.data :=
        fun j hj => hns j (List.mem_cons_of_mem x hj)
      show (splitChOnSpace (strJoin " " (x :: y :: r)).data).map _ = x :: y :: r
      rw [strJoin_space_data x (y :: r) (by simp), splitChOnSpace_append _ _ hx]
      simp only [List.map_cons]
      have : (splitChOnSpace (strJoin " " (y :: r)).data).map
          (fun l => (⟨l⟩ : String)) = y :: r := ih (by simp) hrest
      rw [this]

/-- A deleted file does not exist. -/
theorem FS.fileExists_delete_self (fs : FS) (p : String) :
    (fs.delete p).fileExists p = false := by
  simp only [FS.delete, FS.fileExists, List.any_eq_false]
  intro pc hpc
  have := List.of_mem_filter hpc
  simpa using this

/-- Unsetting a variable makes `getenv` return `None` for it. -/
theorem getenv_delenv_self (env : Env) (k : String) :
    getenv (delenv env k) k = Option.none := by
  simp only [getenv, delenv]
  rw [List.find?_eq_none.mpr]
  · rfl
  · intro p hp
    have := List.of_mem_filter hp
    simpa using this

/-- Unsetting a variable does not change the others. -/
theorem getenv_delenv_ne (env : Env) (k k2 : String) (h : ¬ k2 = k) :
    getenv (delenv env k) k2 = getenv env k2 := by
  induction env with
  | nil => rfl
  | cons p rest ih =>
    by_cases hp : p.1 = k
    · have h1 : (!(p.1 == k)) = false := by simp [hp]
      have h2 : (p.1 == k2) = false := by
        simp only [beq_eq_false_iff_ne, ne_eq, hp]
        exact fun hk => h hk.symm
      simp only [delenv, List.filter_cons, h1, getenv, List.find?, h2] at *
      exact ih
    · have h1 : (!(p.1 == k)) = true := by simp [hp]
      by_cases hp2 : p.1 = k2
      · simp [delenv, List.filter_cons, h1, getenv, List.find?, hp2, h]
      · have h2 : (p.1 == k2) = false := by simp [hp2]
        simp only [delenv, List.filter_cons, h1, getenv, List.find?, h2] at *
        exact ih

/-- Restoring via the `environment_as` setter yields the saved value. -/
theorem getenv_setenv_opt_self (env : Env) (k : String) (o : Option String) :
    getenv (setenv_opt env k o) k = o := by
  cases o with
  | none => exact getenv_delenv_self env k
  | some v => simp [setenv_opt, getenv, List.find?]

/-- Restoring via the `environment_as` setter does not change the others. -/
theorem getenv_setenv_opt_ne (env : Env) (k k2 : String) (o : Option String)
    (h : ¬ k2 = k) :
    getenv (setenv_opt env k o) k2 = getenv env k2 := by
  cases o with
  | none => exact getenv_delenv_ne env k k2 h
  | some v =>
    have h2 : (k == k2) = false := by
      simp only [beq_eq_false_iff_ne, ne_eq]
      exact fun hk => h hk.symm
    simp only [setenv_opt, getenv, List.find?, h2]
    exact getenv_delenv_ne env k k2 h

/-- Values `maybe_list` accepts: a string or a list of strings. -/
def listable : PyVal → Bool
  | .str _ => true
  | .strList _ => true
  | _ => false

/-- The list `maybe_list` produces on an accepted value. -/
def as_list : PyVal → List String
  | .str s => [s]
  | .strList xs => xs
  | _ => []

/-- Values `check_main` accepts: a non-empty string. -/
def valid_main : PyVal → Bool
  | .str s => !s.isEmpty
  | _ => false

/-- The string `check_main` produces on an accepted value. -/
def main_str : PyVal → String
  | .str s => s
  | _ => ""

theorem maybe_list_listable (v : PyVal) (h : listable v = true) :
    maybe_list v = .ok (as_list v) := by
  cases v <;> simp_all [listable, maybe_list, as_list]

theorem maybe_list_not_listable (v : PyVal) (h : listable v = false) :
    maybe_list v = .error (.valueError
      ("Value must be of type str or an iterable of str, given: " ++ pyStr v)) := by
  cases v <;> simp_all [listable, maybe_list]

theorem check_main_valid (main : PyVal) (h : valid_main main = true) :
    check_main main = .ok (main_str main) := by
  cases main <;> simp_all [valid_main, check_main, main_str]

theorem check_main_invalid (main : PyVal) (h : valid_main main = false) :
    check_main main = .error (.valueError
      ("A non-empty main classname is required, given: " ++ pyStr main)) := by
  cases main <;> simp_all [valid_main, check_main]

theorem maybe_list_pyOrEmpty_strList (xs : List String) :
    maybe_list (pyOrEmpty (.strList xs)) = .ok xs := by
  cases xs <;> simp [pyOrEmpty, pyFalsy, maybe_list]

/-- A fully valid call reduces to the normalized tuple. -/
theorem scrub_args_ok (classpath main jvm_options args : PyVal)
    (h1 : listable classpath = true) (h2 : valid_main main = true)
    (h3 : listable (pyOrEmpty jvm_options) = true)
    (h4 : listable (pyOrEmpty args) = true) :
    scrub_args classpath main jvm_options args
      = .ok (as_list classpath, main_str main,
             as_list (pyOrEmpty jvm_options), as_list (pyOrEmpty args)) := by
  simp only [scrub_args, maybe_list_listable _ h1, check_main_valid _ h2,
    maybe_list_listable _ h3, maybe_list_listable _ h4]
  rfl

/-- A written file currently exists. -/
theorem FS.fileExists_write_self (fs : FS) (p : String) (c : FileContent) :
    (fs.write p c).fileExists p = true := by
  simp [FS.write, FS.fileExists]

/-- C7: for every runtime path, classpath, entry-point id, VM options list
and program args list, `_create_command` produces exactly
`[runtime_path] ++ vm_options ++ ["-cp", join(classpath, os_pathsep), entry_point]
++ program_args`; it is a pure function of its arguments, with no side
effects and no validation. -/
theorem C7_create_command_shape (java : String) (classpath : List String)
    (main : String) (jvm_options args : List String) :
    create_command java classpath main jvm_options args
      = [java] ++ jvm_options ++ ["-cp", strJoin os_pathsep classpath, main] ++ args := by
  simp [create_command]

/-- C9: whenever process creation fails with an OS error described by `m`,
`SubprocessExecutor._spawn` raises exactly `Executor.Error` with the message
`Problem executing <java>: <m>` — it wraps the OS failure description, names
the attempted runtime executable path, and no other exception type escapes
(the equation pins the result completely), for either scrub setting. -/
theorem C9_spawn_os_error_wrapped (java : String) (scrub_classpath : Bool)
    (m : String) (cmd : List String) (env : Env) :
    (SubprocessExecutor._spawn java scrub_classpath (some m) cmd env).result
      = Except.error (.executorError ("Problem executing " ++ java ++ ": " ++ m)) := by
  cases scrub_classpath <;> rfl

/-- C1: `Executor.execute` never reaches the Runner: `runner` is a
`@contextmanager`-decorated generator function, so `executor = self.runner(...)`
binds the context-manager object, and `executor.run(...)` raises
`AttributeError` — for every underlying entered-runner semantics and every
filesystem, instead of running the program and returning its exit code. -/
theorem C1_execute_raises_attribute_error
    (entered_run : FS → Except PyExc Int × FS) (fs : FS) :
    Executor.execute entered_run fs
      = (Except.error (.attributeError
          "GeneratorContextManager object has no attribute run"), fs) := by
  rfl

/-- C5: for every classpath, fresh carrier path, initial filesystem and
body of the scope — normal completion, launch failure or a body that returns
an exception — the carrier archive no longer exists once the scope of
`_get_minimized_jar_classpath` exits. -/
theorem C5_carrier_deleted_on_every_exit_path {α : Type} (fresh : String)
    (body : List String → FS → α × FS) (classpath : List String) (fs : FS) :
    ((get_minimized_jar_classpath fresh body classpath fs).2).fileExists fresh = false :=
  FS.fileExists_delete_self _ fresh

/-- The created-files log only grows: writing appends, deleting keeps it. -/
theorem FS.createdLog_write (fs : FS) (p : String) (c : FileContent) :
    (fs.write p c).createdLog = fs.createdLog ++ [p] := rfl

/-- Deletion does not erase the created-files log. -/
theorem FS.createdLog_delete (fs : FS) (p : String) :
    (fs.delete p).createdLog = fs.createdLog := rfl

/-- C2 counterexample: on the all-non-jar classpath `["dir1"]` the minimizer
does not return the input unchanged — the scope observes the classpath
`["/tmp/t2", "dir1"]` (the carrier path prepended) and the carrier archive
file `/tmp/t2` exists during the scope. -/
theorem C2_counterexample :
    (get_minimized_jar_classpath "/tmp/t2"
        (fun cp fs1 => ((cp, fs1.fileExists "/tmp/t2"), fs1)) ["dir1"] ⟨[], []⟩).1
      = (["/tmp/t2", "dir1"], true)
    ∧ ¬ ((["/tmp/t2", "dir1"] : List String) = ["dir1"]) :=
  ⟨rfl, by decide⟩

/-- C2 (amended): for every classpath in which no entry ends in `.jar`, the
minimizer still creates a carrier archive (whose manifest `Class-Path` is the
empty join) and yields `[carrier_path] ++ classpath` — the non-jar entries in
their original order behind the carrier path — rather than the input
unchanged. -/
theorem C2_no_jar_classpath_still_minimized (classpath : List String)
    (fresh : String) (fs : FS)
    (h : ∀ p ∈ classpath, endswith ".jar" p = false) :
    (get_minimized_jar_classpath fresh
        (fun cp fs1 => ((cp, fs1.fileExists fresh), fs1)) classpath fs).1
      = (fresh :: classpath, true) := by
  have h1 : classpath.filter (fun path => endswith ".jar" path) = [] :=
    List.filter_eq_nil_iff.mpr (fun a ha => by simp [h a ha])
  have h2 : classpath.filter (not ∘ fun path => endswith ".jar" path) = classpath :=
    List.filter_eq_self.mpr (fun a ha => by simp [h a ha])
  simp only [get_minimized_jar_classpath, List.partition_eq_filter_filter, h1, h2,
    temporary_file_path, FS.fileExists_write_self]
  rfl

/-- C2 witness: the amended behavior at the concrete classpath `["dir1"]`. -/
theorem C2_witness :
    (∀ p ∈ (["dir1"] : List String), endswith ".jar" p = false)
    ∧ (get_minimized_jar_classpath "/tmp/w2"
        (fun cp fs1 => ((cp, fs1.fileExists "/tmp/w2"), fs1)) ["dir1"] ⟨[], []⟩).1
      = ("/tmp/w2" :: ["dir1"], true) :=
  ⟨by decide, C2_no_jar_classpath_still_minimized ["dir1"] "/tmp/w2" ⟨[], []⟩ (by decide)⟩

/-- Mains that `check_main` rejects: the empty string or a non-string. -/
def invalid_main : PyVal → Bool
  | .str s => s.isEmpty
  | _ => true

/-- With an invalid main, `scrub_args` on an (always valid) list classpath
raises the `ValueError` of the main check. -/
theorem scrub_args_invalid_main (minimized : List String) (main jv a : PyVal)
    (h : invalid_main main = true) :
    scrub_args (.strList minimized) main jv a
      = .error (.valueError
          ("A non-empty main classname is required, given: " ++ pyStr main)) := by
  have hv : valid_main main = false := by
    cases main <;> simp_all [invalid_main, valid_main]
  simp only [scrub_args, maybe_list, check_main_invalid _ hv]
  rfl

/-- C3 counterexample: entering `runner` on a recording executor with the
empty main and classpath `["a.jar"]` raises the Argument Error, but the
carrier archive temporary file `/tmp/t3` had already been created by then —
the error is not raised before filesystem interaction. (No command is
captured and the carrier is removed again while the error propagates.) -/
theorem C3_counterexample :
    (∃ msg, (CommandLineGrabber.runner_enter "/usr/bin/java" "/tmp/t3" ["a.jar"]
        (.str "") .none .none ⟨[], []⟩).1.1 = Except.error (.valueError msg))
    ∧ "/tmp/t3" ∈ ((CommandLineGrabber.runner_enter "/usr/bin/java" "/tmp/t3" ["a.jar"]
        (.str "") .none .none ⟨[], []⟩).2).createdLog :=
  ⟨⟨_, rfl⟩, by decide⟩

/-- C3 (amended): for every call entered on `runner` of the recording
strategy with an empty or non-string main, the Argument Error is raised
before any command is captured (the recorded command stays `none`) and before
any process is spawned, but not before filesystem interaction: the carrier
archive temporary file has already been created when the error is raised, and
is removed again by the scope as the error propagates. -/
theorem C3_argument_error_after_carrier_creation (java fresh : String)
    (classpath : List String) (main jvm_options args : PyVal) (fs : FS)
    (h : invalid_main main = true) :
    (∃ msg, (CommandLineGrabber.runner_enter java fresh classpath
        main jvm_options args fs).1.1 = Except.error (.valueError msg))
    ∧ (CommandLineGrabber.runner_enter java fresh classpath
        main jvm_options args fs).1.2 = Option.none
    ∧ fresh ∈ ((CommandLineGrabber.runner_enter java fresh classpath
        main jvm_options args fs).2).createdLog
    ∧ ((CommandLineGrabber.runner_enter java fresh classpath
        main jvm_options args fs).2).fileExists fresh = false := by
  refine ⟨⟨"A non-empty main classname is required, given: " ++ pyStr main, ?_⟩, ?_, ?_, ?_⟩
  · simp only [CommandLineGrabber.runner_enter, get_minimized_jar_classpath,
      temporary_file_path, scrub_args_invalid_main _ _ _ _ h]
  · simp only [CommandLineGrabber.runner_enter, get_minimized_jar_classpath,
      temporary_file_path, scrub_args_invalid_main _ _ _ _ h]
  · simp only [CommandLineGrabber.runner_enter, get_minimized_jar_classpath,
      temporary_file_path, scrub_args_invalid_main _ _ _ _ h,
      FS.createdLog_delete, FS.createdLog_write]
    simp
  · exact FS.fileExists_delete_self _ fresh

/-- C3 witness: the amended behavior at the concrete input of the
counterexample shape (empty main, classpath `["b.jar"]`). -/
theorem C3_witness :
    invalid_main (.str "") = true
    ∧ ((∃ msg, (CommandLineGrabber.runner_enter "/usr/bin/java" "/tmp/w3" ["b.jar"]
        (.str "") .none .none ⟨[], []⟩).1.1 = Except.error (.valueError msg))
      ∧ (CommandLineGrabber.runner_enter "/usr/bin/java" "/tmp/w3" ["b.jar"]
        (.str "") .none .none ⟨[], []⟩).1.2 = Option.none
      ∧ "/tmp/w3" ∈ ((CommandLineGrabber.runner_enter "/usr/bin/java" "/tmp/w3" ["b.jar"]
        (.str "") .none .none ⟨[], []⟩).2).createdLog
      ∧ ((CommandLineGrabber.runner_enter "/usr/bin/java" "/tmp/w3" ["b.jar"]
        (.str "") .none .none ⟨[], []⟩).2).fileExists "/tmp/w3" = false) :=
  ⟨by decide, C3_argument_error_after_carrier_creation "/usr/bin/java" "/tmp/w3"
    ["b.jar"] (.str "") .none .none ⟨[], []⟩ (by decide)⟩

/-- C4 counterexample: for the classpath `["a b.jar"]` — one jar entry whose
path contains a space — the carrier manifest `Class-Path` value is
`"a b.jar"`, and splitting it on spaces yields `["a", "b.jar"]`, not the
original ordered list of jar entries `["a b.jar"]`. -/
theorem C4_counterexample :
    (get_minimized_jar_classpath "/tmp/t4"
        (fun cp fs1 => ((cp, fs1.read "/tmp/t4"), fs1)) ["a b.jar"] ⟨[], []⟩).1
      = (["/tmp/t4"], some (.jarWith (minimizer_manifest ["a b.jar"])))
    ∧ Manifest.lookup (minimizer_manifest ["a b.jar"]) Manifest.CLASS_PATH
      = some "a b.jar"
    ∧ splitSpaces "a b.jar" = ["a", "b.jar"]
    ∧ ¬ ((["a", "b.jar"] : List String) = ["a b.jar"]) :=
  ⟨rfl, rfl, rfl, by decide⟩

/-- C4 (amended): for every classpath containing at least one jar entry, the
minimized classpath is exactly `[carrier_path] ++ non_jar_entries`, hence has
`1 + count(non_jar_entries)` entries, the carrier holds the minimizer
manifest whose `Class-Path` value is the space-join of the ordered jar
entries, and — provided no jar entry contains a space character — that value,
split on spaces, equals the ordered list of the original jar entries. -/
theorem C4_minimized_classpath_shape (classpath : List String) (fresh : String)
    (fs : FS) (hjar : ∃ p ∈ classpath, endswith ".jar" p = true) :
    (get_minimized_jar_classpath fresh
        (fun cp fs1 => ((cp, fs1.read fresh), fs1)) classpath fs).1
      = (fresh :: classpath.filter (fun p => !endswith ".jar" p),
         some (.jarWith (minimizer_manifest
           (classpath.filter (fun p => endswith ".jar" p)))))
    ∧ (fresh :: classpath.filter (fun p => !endswith ".jar" p)).length
      = 1 + classpath.countP (fun p => !endswith ".jar" p)
    ∧ Manifest.lookup
        (minimizer_manifest (classpath.filter (fun p => endswith ".jar" p)))
        Manifest.CLASS_PATH
      = some (strJoin " " (classpath.filter (fun p => endswith ".jar" p)))
    ∧ ((∀ p ∈ classpath, endswith ".jar" p = true → ' ' ∉ p.data) →
        splitSpaces (strJoin " " (classpath.filter (fun p => endswith ".jar" p)))
          = classpath.filter (fun p => endswith ".jar" p)) := by
  refine ⟨?_, ?_, ?_, ?_⟩
  · simp only [get_minimized_jar_classpath, List.partition_eq_filter_filter,
      temporary_file_path]
    simp [FS.read, FS.write, Function.comp_def]
  · simp [List.countP_eq_length_filter, Nat.add_comm]
  · rfl
  · intro hns
    apply splitSpaces_strJoin
    · obtain ⟨p, hp, hjp⟩ := hjar
      intro hempty
      have : p ∈ classpath.filter (fun p => endswith ".jar" p) :=
        List.mem_filter.mpr ⟨hp, hjp⟩
      rw [hempty] at this
      cases this
    · intro j hj
      have := List.mem_filter.mp hj
      exact hns j this.1 this.2

/-- C4 witness: the amended behavior at the concrete classpath
`["a.jar", "dir"]`. -/
theorem C4_witness :
    (∃ p ∈ (["a.jar", "dir"] : List String), endswith ".jar" p = true)
    ∧ ((get_minimized_jar_classpath "/tmp/w4"
        (fun cp fs1 => ((cp, fs1.read "/tmp/w4"), fs1)) ["a.jar", "dir"] ⟨[], []⟩).1
      = ("/tmp/w4" :: (["a.jar", "dir"] : List String).filter (fun p => !endswith ".jar" p),
         some (.jarWith (minimizer_manifest
           ((["a.jar", "dir"] : List String).filter (fun p => endswith ".jar" p)))))
      ∧ ("/tmp/w4" :: (["a.jar", "dir"] : List String).filter (fun p => !endswith ".jar" p)).length
        = 1 + (["a.jar", "dir"] : List String).countP (fun p => !endswith ".jar" p)
      ∧ Manifest.lookup
          (minimizer_manifest ((["a.jar", "dir"] : List String).filter (fun p => endswith ".jar" p)))
          Manifest.CLASS_PATH
        = some (strJoin " " ((["a.jar", "dir"] : List String).filter (fun p => endswith ".jar" p)))
      ∧ ((∀ p ∈ (["a.jar", "dir"] : List String),
            endswith ".jar" p = true → ' ' ∉ p.data) →
          splitSpaces (strJoin " " ((["a.jar", "dir"] : List String).filter (fun p => endswith ".jar" p)))
            = (["a.jar", "dir"] : List String).filter (fun p => endswith ".jar" p))) :=
  ⟨by decide,
    C4_minimized_classpath_shape ["a.jar", "dir"] "/tmp/w4" ⟨[], []⟩ (by decide)⟩

/-- C6: for every spawn of the Process Strategy with scrubbing enabled —
with the OS either starting the child (`osError = none`) or refusing
(`osError = some m`) — the child, when started, inherits the environment with
`CLASSPATH` unset; `CLASSPATH` is indeed unset in that environment; after the
call the caller environment is observationally the original one (so the
ambient `CLASSPATH` is restored and every other variable is unchanged); the
scrubbed environment differs from the original on no variable other than
`CLASSPATH`; and a warning is emitted exactly when a non-empty ambient value
was discarded. -/
theorem C6_scrub_scoped_restore (java : String) (osError : Option String)
    (cmd : List String) (env : Env) :
    ((SubprocessExecutor._spawn java true osError cmd env).result
      = match osError with
        | some m => Except.error (.executorError
            ("Problem executing " ++ java ++ ": " ++ m))
        | Option.none => Except.ok { childEnv := delenv env "CLASSPATH", argv := cmd })
    ∧ getenv (delenv env "CLASSPATH") "CLASSPATH" = Option.none
    ∧ (∀ k, getenv (SubprocessExecutor._spawn java true osError cmd env).finalEnv k
        = getenv env k)
    ∧ (∀ k, ¬ k = "CLASSPATH" →
        getenv (delenv env "CLASSPATH") k = getenv env k)
    ∧ (SubprocessExecutor._spawn java true osError cmd env).warnings
      = (match getenv env "CLASSPATH" with
         | some s => if s.isEmpty then [] else ["Scrubbing CLASSPATH=" ++ s]
         | Option.none => []) := by
  refine ⟨?_, getenv_delenv_self env "CLASSPATH", ?_, ?_, ?_⟩
  · cases osError <;> rfl
  · intro k
    have hfinal : (SubprocessExecutor._spawn java true osError cmd env).finalEnv
        = setenv_opt (delenv env "CLASSPATH") "CLASSPATH" (getenv env "CLASSPATH") := by
      cases osError <;> rfl
    rw [hfinal]
    by_cases hk : k = "CLASSPATH"
    · subst hk
      exact getenv_setenv_opt_self _ _ _
    · rw [getenv_setenv_opt_ne _ _ _ _ hk, getenv_delenv_ne _ _ _ hk]
  · intro k hk
    exact getenv_delenv_ne _ _ _ hk
  · rfl

/-- C6 witness: the theorem at the concrete environment
`[("CLASSPATH", "/old.jar"), ("HOME", "/root")]` with a successful spawn. -/
theorem C6_witness :
    ((SubprocessExecutor._spawn "/usr/bin/java" true Option.none ["java"]
        [("CLASSPATH", "/old.jar"), ("HOME", "/root")]).result
      = match (Option.none : Option String) with
        | some m => Except.error (.executorError
            ("Problem executing " ++ "/usr/bin/java" ++ ": " ++ m))
        | Option.none => Except.ok
            { childEnv := delenv [("CLASSPATH", "/old.jar"), ("HOME", "/root")] "CLASSPATH",
              argv := ["java"] })
    ∧ getenv (delenv [("CLASSPATH", "/old.jar"), ("HOME", "/root")] "CLASSPATH")
        "CLASSPATH" = Option.none
    ∧ (∀ k, getenv (SubprocessExecutor._spawn "/usr/bin/java" true Option.none ["java"]
        [("CLASSPATH", "/old.jar"), ("HOME", "/root")]).finalEnv k
        = getenv [("CLASSPATH", "/old.jar"), ("HOME", "/root")] k)
    ∧ (∀ k, ¬ k = "CLASSPATH" →
        getenv (delenv [("CLASSPATH", "/old.jar"), ("HOME", "/root")] "CLASSPATH") k
        = getenv [("CLASSPATH", "/old.jar"), ("HOME", "/root")] k)
    ∧ (SubprocessExecutor._spawn "/usr/bin/java" true Option.none ["java"]
        [("CLASSPATH", "/old.jar"), ("HOME", "/root")]).warnings
      = (match getenv [("CLASSPATH", "/old.jar"), ("HOME", "/root")] "CLASSPATH" with
         | some s => if s.isEmpty then [] else ["Scrubbing CLASSPATH=" ++ s]
         | Option.none => []) :=
  C6_scrub_scoped_restore "/usr/bin/java" Option.none ["java"]
    [("CLASSPATH", "/old.jar"), ("HOME", "/root")]

/-- Every element of a joined list occurs literally inside the join. -/
theorem strJoin_mem_infix (sep : String) (l : List String) (e : String)
    (he : e ∈ l) :
    ∃ pre post, (strJoin sep l).data = pre ++ e.data ++ post := by
  induction l with
  | nil => cases he
  | cons x rest ih =>
    cases rest with
    | nil =>
      have hex : e = x := by
        cases he with
        | head => rfl
        | tail _ h => cases h
      exact ⟨[], [], by simp [hex, strJoin]⟩
    | cons y r =>
      cases he with
      | head =>
        refine ⟨[], sep.data ++ (strJoin sep (y :: r)).data, ?_⟩
        show (e ++ sep ++ strJoin sep (y :: r)).data
          = [] ++ e.data ++ (sep.data ++ (strJoin sep (y :: r)).data)
        rw [String.data_append, String.data_append]
        simp [List.append_assoc]
      | tail _ hrest =>
        obtain ⟨pre, post, hpp⟩ := ih hrest
        refine ⟨x.data ++ sep.data ++ pre, post, ?_⟩
        show (x ++ sep ++ strJoin sep (y :: r)).data = _
        rw [String.data_append, String.data_append, hpp]
        simp [List.append_assoc]

/-- C10: `SubprocessExecutor.spawn` builds its command line directly from the
scrubbed arguments without invoking the classpath minimizer: the filesystem
is untouched (no carrier archive is created), the spawned argument vector is
exactly `[java] ++ jvm_options ++ ["-cp", join(classpath), main] ++ args`
with the input classpath unchanged, and every entry of the input classpath —
jar entries included — appears literally inside the joined `-cp` token. -/
theorem C10_spawn_bypasses_minimizer (java : String) (scrub_classpath : Bool)
    (osError : Option String) (cps : List String) (mainS : String)
    (jv a : List String) (env : Env) (fs : FS) (hm : mainS.isEmpty = false) :
    (SubprocessExecutor.spawn java scrub_classpath osError
        (.strList cps) (.str mainS) (.strList jv) (.strList a) env fs).2 = fs
    ∧ (osError = Option.none →
        ∃ p, (SubprocessExecutor.spawn java scrub_classpath osError
            (.strList cps) (.str mainS) (.strList jv) (.strList a) env fs).1.1
          = Except.ok p
          ∧ p.argv = [java] ++ jv ++ ["-cp", strJoin os_pathsep cps, mainS] ++ a)
    ∧ (∀ e ∈ cps, ∃ pre post,
        (strJoin os_pathsep cps).data = pre ++ e.data ++ post) := by
  have hcm : check_main (.str mainS) = .ok mainS := by simp [check_main, hm]
  have hs : scrub_args (.strList cps) (.str mainS) (.strList jv) (.strList a)
      = .ok (cps, mainS, jv, a) := by
    simp only [scrub_args, hcm, maybe_list_pyOrEmpty_strList]
    rfl
  refine ⟨?_, ?_, ?_⟩
  · simp only [SubprocessExecutor.spawn, hs]
  · intro ho
    subst ho
    cases scrub_classpath with
    | false =>
      refine ⟨{ childEnv := env, argv := create_command java cps mainS jv a }, ?_, ?_⟩
      · simp only [SubprocessExecutor.spawn, hs]
        rfl
      · simp [create_command]
    | true =>
      refine ⟨{ childEnv := delenv env "CLASSPATH",
                argv := create_command java cps mainS jv a }, ?_, ?_⟩
      · simp only [SubprocessExecutor.spawn, hs]
        rfl
      · simp [create_command]
  · intro e he
    exact strJoin_mem_infix os_pathsep cps e he

/-- C10 witness: the theorem at the concrete classpath `["a.jar", "b.jar"]`
with a successful spawn under scrubbing. -/
theorem C10_witness :
    ("com.Main" : String).isEmpty = false
    ∧ ((SubprocessExecutor.spawn "/usr/bin/java" true Option.none
        (.strList ["a.jar", "b.jar"]) (.str "com.Main") (.strList [])
        (.strList ["x"]) [] ⟨[], []⟩).2 = (⟨[], []⟩ : FS)
      ∧ ((Option.none : Option String) = Option.none →
          ∃ p, (SubprocessExecutor.spawn "/usr/bin/java" true Option.none
              (.strList ["a.jar", "b.jar"]) (.str "com.Main") (.strList [])
              (.strList ["x"]) [] ⟨[], []⟩).1.1
            = Except.ok p
            ∧ p.argv = ["/usr/bin/java"] ++ []
                ++ ["-cp", strJoin os_pathsep ["a.jar", "b.jar"], "com.Main"] ++ ["x"])
      ∧ (∀ e ∈ (["a.jar", "b.jar"] : List String), ∃ pre post,
          (strJoin os_pathsep ["a.jar", "b.jar"]).data = pre ++ e.data ++ post)) :=
  ⟨rfl, C10_spawn_bypasses_minimizer "/usr/bin/java" true Option.none
    ["a.jar", "b.jar"] "com.Main" [] ["x"] [] ⟨[], []⟩ rfl⟩

/-- C8 counterexample: `_scrub_args` with `classpath = None` and the valid
non-empty string main `"com.Main"` raises a `ValueError` — so the Argument
Error is not raised only when main is empty or not a string, and a `None`
classpath is not normalized to an empty sequence. -/
theorem C8_counterexample :
    (∃ msg, scrub_args .none (.str "com.Main") .none .none
      = Except.error (.valueError msg))
    ∧ ("com.Main" : String).isEmpty = false :=
  ⟨⟨_, rfl⟩, rfl⟩

/-- C8 (amended): `_scrub_args` raises a `ValueError` if and only if the
classpath is not a string or list of strings (in particular when it is
`None`), or main is empty or not a string, or jvm options or args (after the
`or ()` defaulting that replaces falsy values, `None` included, by the empty
sequence) are not a string or list of strings; otherwise it returns the
normalized tuple in which a single string becomes a one-element list and a
list is kept. -/
theorem C8_scrub_args_characterization (classpath main jvm_options args : PyVal) :
    if (listable classpath && valid_main main && listable (pyOrEmpty jvm_options)
        && listable (pyOrEmpty args)) = true
    then scrub_args classpath main jvm_options args
      = .ok (as_list classpath, main_str main, as_list (pyOrEmpty jvm_options),
             as_list (pyOrEmpty args))
    else ∃ msg, scrub_args classpath main jvm_options args
      = Except.error (.valueError msg) := by
  by_cases h1 : listable classpath = true
  · by_cases h2 : valid_main main = true
    · by_cases h3 : listable (pyOrEmpty jvm_options) = true
      · by_cases h4 : listable (pyOrEmpty args) = true
        · rw [if_pos (by simp [h1, h2, h3, h4])]
          exact scrub_args_ok _ _ _ _ h1 h2 h3 h4
        · rw [if_neg (by simp [h4])]
          have h4f : listable (pyOrEmpty args) = false := Bool.eq_false_iff.mpr h4
          refine ⟨"Value must be of type str or an iterable of str, given: "
            ++ pyStr (pyOrEmpty args), ?_⟩
          simp only [scrub_args, maybe_list_listable _ h1, check_main_valid _ h2,
            maybe_list_listable _ h3, maybe_list_not_listable _ h4f]
          rfl
      · rw [if_neg (by simp [h3])]
        have h3f : listable (pyOrEmpty jvm_options) = false := Bool.eq_false_iff.mpr h3
        refine ⟨"Value must be of type str or an iterable of str, given: "
          ++ pyStr (pyOrEmpty jvm_options), ?_⟩
        simp only [scrub_args, maybe_list_listable _ h1, check_main_valid _ h2,
          maybe_list_not_listable _ h3f]
        rfl
    · rw [if_neg (by simp [h2])]
      have h2f : valid_main main = false := Bool.eq_false_iff.mpr h2
      refine ⟨"A non-empty main classname is required, given: " ++ pyStr main, ?_⟩
      simp only [scrub_args, maybe_list_listable _ h1, check_main_invalid _ h2f]
      rfl
  · rw [if_neg (by simp [h1])]
    have h1f : listable classpath = false := Bool.eq_false_iff.mpr h1
    refine ⟨"Value must be of type str or an iterable of str, given: "
      ++ pyStr classpath, ?_⟩
    simp only [scrub_args, maybe_list_not_listable _ h1f]
    rfl
